import Mathlib

/-!
# Verification of the RSSI-seeking robot controller

A shallow embedding, over `ℚ`, of the signal-gradient homing controller of the
RSSI-SIGNAL-FIND-BOT repository: the burst-sampling trimmed mean
(`WiFiSensor.get_averaged_rssi` in `final_version.py` / `wifi_bot3.py`), the
1-D recursive RSSI filter (`RSSIKalmanFilter` in `test12.py` / `test24.py` /
`test25.py`), the obstacle debounce (`NavigationController.check_obstacle`),
the k-of-N verification gate (`NavigationController.handle_verify`), the
steering commands of the motion code (`test24.py` / `test12.py`), and the
per-tick navigation state machine of `final_version.py`.

Numeric values from the Python sources are embedded as exact rationals;
machine floats are modelled by `ℚ`, and Python's `int()` truncation by
`pyInt`.  Sensor reads that may fail are `Option ℚ`.
-/

namespace RSSIBot

/-! ### Configuration constants taken from the source files -/

/-- `OBSTACLE_DIST_CM = 25` (`final_version.py`, `wifi_bot3.py`, `test25.py`). -/
def OBSTACLE_DIST_CM : ℚ := 25

/-- `MAX_STEER_ANGLE = 35` (`test12.py`, `test24.py`, `test25.py`). -/
def MAX_STEER_ANGLE : ℚ := 35

/-- `MEASUREMENT_NOISE_R = 2.0` (`test12.py`, `test24.py`, `test25.py`). -/
def MEASUREMENT_NOISE_R : ℚ := 2

/-- `PROCESS_NOISE_Q = 0.05` (`test12.py`, `test24.py`, `test25.py`). -/
def PROCESS_NOISE_Q : ℚ := 1/20

/-- `VISION_STEER_GAIN = 1.35` (`test24.py`). -/
def VISION_STEER_GAIN : ℚ := 27/20

/-- `VISION_FREE_AHEAD_MIN = 0.55` (`test24.py`). -/
def VISION_FREE_AHEAD_MIN : ℚ := 11/20

/-- `OBSTACLE_CONFIRM_COUNT = 3` (`test25.py`). -/
def OBSTACLE_CONFIRM_COUNT : ℕ := 3

/-- `APPROACH_THRESHOLD = -53` (`final_version.py`). -/
def APPROACH_THRESHOLD_FV : ℚ := -53

/-- `TARGET_RSSI = -48.5` (`final_version.py`). -/
def TARGET_RSSI_FV : ℚ := -97/2

/-- `VERIFY_TOTAL_CHECKS = 20` (`final_version.py`). -/
def VERIFY_TOTAL_CHECKS_FV : ℕ := 20

/-- `VERIFY_REQUIRED_HITS = 4` (`final_version.py`). -/
def VERIFY_REQUIRED_HITS_FV : ℕ := 4

/-! ### Small utilities -/

/-- `clamp` from `test24.py` lines 70-71:
`return lo if x < lo else hi if x > hi else x`. -/
def clamp (x lo hi : ℚ) : ℚ :=
  if x < lo then lo else if hi < x then hi else x

/-- Python's `int()` applied to a real value: truncation toward zero. -/
def pyInt (q : ℚ) : ℤ :=
  if 0 ≤ q then ⌊q⌋ else -⌊-q⌋

theorem clamp_mem (x lo hi : ℚ) (h : lo ≤ hi) : lo ≤ clamp x lo hi ∧ clamp x lo hi ≤ hi := by
  unfold clamp
  split
  · exact ⟨le_refl _, h⟩
  · split
    · exact ⟨h, le_refl _⟩
    · constructor <;> linarith [not_lt.mp ‹¬x < lo›, not_lt.mp ‹¬hi < x›]

theorem pyInt_mem (q : ℚ) (lo hi : ℤ) (hlo : lo ≤ 0) (hhi : 0 ≤ hi)
    (h1 : (lo : ℚ) ≤ q) (h2 : q ≤ (hi : ℚ)) : lo ≤ pyInt q ∧ pyInt q ≤ hi := by
  unfold pyInt
  split
  · have h0 : (0:ℚ) ≤ q := ‹_›
    constructor
    · exact le_trans hlo (Int.le_floor.mpr (by exact_mod_cast h0))
    · exact (Int.floor_le_floor h2).trans (by simp)
  · have h0 : q < 0 := lt_of_not_ge ‹_›
    constructor
    · have : ⌊-q⌋ ≤ -lo := by
        have h : -q ≤ ((-lo : ℤ) : ℚ) := by push_cast; linarith
        exact (Int.floor_le_floor h).trans (by rw [Int.floor_intCast])
      omega
    · have : (0:ℤ) ≤ ⌊-q⌋ := Int.le_floor.mpr (by push_cast; linarith)
      omega

/-! ### The recursive RSSI filter (`RSSIKalmanFilter`) -/

/-- State of the 1-D recursive filter of `test12.py` / `test24.py` / `test25.py`:
measurement noise `R`, process noise `Q`, estimate `x`, variance `P`. -/
structure RSSIKalmanFilter where
  R : ℚ
  Q : ℚ
  x : ℚ
  P : ℚ
deriving DecidableEq

namespace RSSIKalmanFilter

/-- `RSSIKalmanFilter.__init__(R, Q, initial_value)`: `x = initial_value`, `P = 1.0`. -/
def init (R Q initialValue : ℚ) : RSSIKalmanFilter :=
  ⟨R, Q, initialValue, 1⟩

/-- `RSSIKalmanFilter.filter(measurement)` (`test12.py` lines 25-37, `test24.py`
lines 86-96, `test25.py` lines 33-40).  Returns the updated filter object and
the value the Python method returns.  When `measurement is None` the method
returns `self.x` without touching `self.x` or `self.P`. -/
def filter (kf : RSSIKalmanFilter) (measurement : Option ℚ) : RSSIKalmanFilter × ℚ :=
  match measurement with
  | none => (kf, kf.x)
  | some z =>
    let pPred := kf.P + kf.Q
    let K := pPred / (pPred + kf.R)
    let x' := kf.x + K * (z - kf.x)
    let P' := (1 - K) * pPred
    (⟨kf.R, kf.Q, x', P'⟩, x')

end RSSIKalmanFilter

/-- One measurement-present update of the filter state. -/
def kfStep (kf : RSSIKalmanFilter) (z : ℚ) : RSSIKalmanFilter :=
  (kf.filter (some z)).1

/-- The sequence of variances `P` reported while feeding the measurements
`zs` tick by tick into the filter (the initial `P` included). -/
def varianceTrace (kf : RSSIKalmanFilter) (zs : List ℚ) : List ℚ :=
  (List.scanl kfStep kf zs).map RSSIKalmanFilter.P

/-- `test12.py` `run` lines 160-164 (same in `test24.py` line 555 and
`test25.py` lines 160-163): the tick's filtered signal is
`kf.filter(raw)` when the raw burst produced a value and the previous
`last_rssi` otherwise; the filter object is touched only in the first case. -/
def tickFilter (kf : RSSIKalmanFilter) (lastRssi : ℚ) (raw : Option ℚ) :
    RSSIKalmanFilter × ℚ :=
  match raw with
  | some z => kf.filter (some z)
  | none => (kf, lastRssi)

/-! ### The obstacle monitor (`check_obstacle`) -/

/-- The Python truthiness-plus-range test `dist and 0 < dist < OBSTACLE_DIST_CM`
applied to one ultrasonic reading (`None` is falsy, `0` is falsy). -/
def obstacleHit (dist : Option ℚ) : Bool :=
  match dist with
  | some d => decide (d ≠ 0 ∧ 0 < d ∧ d < OBSTACLE_DIST_CM)
  | none => false

/-- `NavigationController.check_obstacle` (`final_version.py` lines 136-142,
`wifi_bot3.py` lines 109-117): increment the debounce counter on a confirmed
close reading, reset it to zero otherwise, and report an obstacle once the
counter has reached 2. -/
def check_obstacle (counter : ℕ) (dist : Option ℚ) : ℕ × Bool :=
  let c : ℕ := if obstacleHit dist then counter + 1 else 0
  (c, decide (2 ≤ c))

/-- The debounce counter after feeding a whole list of readings. -/
def obstacleCounterAfter (c0 : ℕ) (ds : List (Option ℚ)) : ℕ :=
  ds.foldl (fun c d => (check_obstacle c d).1) c0

/-- The booleans returned by successive `check_obstacle` calls on `ds`. -/
def obstacleReports (c0 : ℕ) : List (Option ℚ) → List Bool
  | [] => []
  | d :: ds => (check_obstacle c0 d).2 :: obstacleReports (check_obstacle c0 d).1 ds

/-- Length of the trailing run of confirmed-close readings of a list. -/
def leadingHits : List (Option ℚ) → ℕ
  | [] => 0
  | d :: ds => if obstacleHit d then leadingHits ds + 1 else 0

/-- The number of consecutive confirmed-close readings at the end of `ds`. -/
def trailingHits (ds : List (Option ℚ)) : ℕ :=
  leadingHits ds.reverse

/-! ### Burst sampling (`WiFiSensor.get_averaged_rssi`) -/

/-- Sum of a list of rationals. -/
def listSum (l : List ℚ) : ℚ := l.sum

/-- `statistics.mean`. -/
def listMean (l : List ℚ) : ℚ := listSum l / l.length

/-- `readings.sort()`: ascending sort. -/
def sortAsc (l : List ℚ) : List ℚ := l.insertionSort (· ≤ ·)

/-- The Python slice `l[k:-k]` for `k > 0`: drop `k` from the front and `k`
from the back. -/
def pyTrim (l : List ℚ) (k : ℕ) : List ℚ := (l.drop k).take (l.length - 2 * k)

/-- `WiFiSensor.get_averaged_rssi` (`final_version.py` lines 56-70,
`wifi_bot3.py` lines 52-77), given the list of valid raw readings the burst
collected (failed reads are already excluded by the collection loop):
if the list is empty return `None`; if at least 5 readings were obtained,
sort ascending and, when `trim_amt = int(len * 0.1)` is positive, take the
slice `readings[trim_amt:-trim_amt]`; finally return the mean. -/
def get_averaged_rssi (readings : List ℚ) : Option ℚ :=
  if readings = [] then none
  else
    let rs : List ℚ :=
      if 5 ≤ readings.length then
        let sorted := sortAsc readings
        let trimAmt := readings.length / 10
        if 0 < trimAmt then pyTrim sorted trimAmt else sorted
      else readings
    if rs = [] then none else some (listMean rs)

/-! ### The verification gate (`handle_verify`) -/

/-- The verify counters owned by the controller. -/
structure VerifySt where
  counter : ℕ
  hits : ℕ
deriving DecidableEq

/-- `NavigationController.handle_verify` (`final_version.py` lines 257-273,
`wifi_bot3.py` lines 253-277) with the configuration constants abstracted:
increment `verify_counter`, increment `verify_hits` iff
`curr_rssi >= TARGET_RSSI`, and once `verify_counter >= VERIFY_TOTAL_CHECKS`
report `some (verify_hits >= VERIFY_REQUIRED_HITS)` — `some true` is the
transition to FINISH ("confirmed"), `some false` the fallback to SEARCH;
`none` means the gate stays in VERIFY. -/
def handle_verify (total required : ℕ) (target : ℚ) (st : VerifySt) (rssi : ℚ) :
    VerifySt × Option Bool :=
  let counter := st.counter + 1
  let hits := if target ≤ rssi then st.hits + 1 else st.hits
  let report := if total ≤ counter then some (decide (required ≤ hits)) else none
  (⟨counter, hits⟩, report)

/-- The reports of successive `handle_verify` calls over a sample list. -/
def verifyReports (total required : ℕ) (target : ℚ) (st : VerifySt) :
    List ℚ → List (Option Bool)
  | [] => []
  | s :: ss =>
    (handle_verify total required target st s).2 ::
      verifyReports total required target (handle_verify total required target st s).1 ss

/-! ### Navigation states -/

/-- The navigation states named across the source variants. -/
inductive NavState
  | SEARCH
  | APPROACH
  | VERIFY
  | AVOID
  | FINISH
deriving DecidableEq

/-! ### The per-tick controller of `final_version.py` -/

/-- Controller state of `final_version.py`'s `NavigationController` (the
fields mutated by the control loop; motion and timing are external). -/
structure FvSt where
  state : NavState
  prevAvgRssi : ℚ
  consecutiveDrops : ℕ
  obstacleCounter : ℕ
  verify : VerifySt
deriving DecidableEq

/-- Initial controller state (`final_version.py` `__init__` lines 89-96):
SEARCH, `prev_avg_rssi = -100.0`, all counters zero. -/
def fvInit : FvSt :=
  ⟨NavState.SEARCH, -100, 0, 0, ⟨0, 0⟩⟩

/-- `NavigationController.handle_search` (`final_version.py` lines 205-226)
with the threshold abstracted: switch to APPROACH when
`curr_rssi > APPROACH_THRESHOLD` (the rest of the handler is motion only). -/
def handle_search (approachThreshold : ℚ) (st : FvSt) (rssi : ℚ) : FvSt :=
  if approachThreshold < rssi then
    { st with state := NavState.APPROACH, consecutiveDrops := 0 }
  else st

/-- `NavigationController.handle_approach` (`final_version.py` lines 228-255)
with the target abstracted: switch to VERIFY (resetting the verify counters)
when `curr_rssi >= TARGET_RSSI`; otherwise track the consecutive-drop counter,
resetting it when it reaches 3 (the re-orientation maneuver) or when the
delta is non-negative. -/
def handle_approach (target : ℚ) (st : FvSt) (rssi delta : ℚ) : FvSt :=
  if target ≤ rssi then
    { st with state := NavState.VERIFY, verify := ⟨0, 0⟩ }
  else if 0 ≤ delta then
    { st with consecutiveDrops := 0 }
  else
    let drops := st.consecutiveDrops + 1
    if 3 ≤ drops then { st with consecutiveDrops := 0 }
    else { st with consecutiveDrops := drops }

/-- The VERIFY branch of `final_version.py`'s state machine: run
`handle_verify` and apply its report to the navigation state. -/
def fvVerifyStep (total required : ℕ) (target : ℚ) (st : FvSt) (rssi : ℚ) : FvSt :=
  let r := handle_verify total required target st.verify rssi
  match r.2 with
  | some true => { st with state := NavState.FINISH, verify := r.1 }
  | some false => { st with state := NavState.SEARCH, verify := r.1 }
  | none => { st with verify := r.1 }

/-- One iteration of `NavigationController.run`'s `while` loop
(`final_version.py` lines 170-198) on a tick whose burst produced the value
`rssi`, with the ultrasonic reading `dist`.  Mirrors the source order:
obstacle check first (`if self.state != "FINISH" and self.check_obstacle()`,
short-circuit: at FINISH the ultrasonic is not read), `avoid_obstacle`
(which ends in `self.state = "SEARCH"`) plus `continue` on a confirmed
obstacle (so `prev_avg_rssi` is not updated on that path), then the
state-specific branch followed by `self.prev_avg_rssi = curr_rssi`; a tick
starting at FINISH breaks out of the loop before that update. -/
def fvTick (approachThreshold target : ℚ) (total required : ℕ)
    (st : FvSt) (rssi : ℚ) (dist : Option ℚ) : FvSt :=
  if st.state = NavState.FINISH then st
  else
    let ob := check_obstacle st.obstacleCounter dist
    if ob.2 then
      { st with state := NavState.SEARCH, obstacleCounter := ob.1 }
    else
      let st1 : FvSt := { st with obstacleCounter := ob.1 }
      let delta := rssi - st.prevAvgRssi
      let st2 : FvSt :=
        match st1.state with
        | NavState.SEARCH => handle_search approachThreshold st1 rssi
        | NavState.APPROACH => handle_approach target st1 rssi delta
        | NavState.VERIFY => fvVerifyStep total required target st1 rssi
        | _ => st1
      { st2 with prevAvgRssi := rssi }

/-- Folding `fvTick` over a list of `(rssi, dist)` tick inputs. -/
def fvRun (approachThreshold target : ℚ) (total required : ℕ)
    (st : FvSt) (ticks : List (ℚ × Option ℚ)) : FvSt :=
  ticks.foldl (fun s t => fvTick approachThreshold target total required s t.1 t.2) st

/-! ### The obstacle gate of `test25.py` -/

/-- `test25.py` `run` lines 170-179: the debounce and the transition to AVOID
run only when the state is neither FINISH nor VERIFY; on confirmation
(`obstacle_counter >= OBSTACLE_CONFIRM_COUNT`) the state becomes AVOID and the
counter resets. -/
def t25ObstacleGate (state : NavState) (counter : ℕ) (dist : Option ℚ) :
    NavState × ℕ :=
  if state ≠ NavState.FINISH ∧ state ≠ NavState.VERIFY then
    let c : ℕ :=
      match dist with
      | some d => if 0 < d ∧ d < OBSTACLE_DIST_CM then counter + 1 else 0
      | none => 0
    if OBSTACLE_CONFIRM_COUNT ≤ c then (NavState.AVOID, 0) else (state, c)
  else (state, counter)

/-! ### The steering commands of `test24.py` (with `test12.py` a subset) -/

/-- `APPROACH_THRESHOLD = -50` (`test24.py`, `test12.py`, `test25.py`). -/
def APPROACH_THRESHOLD_T24 : ℚ := -50

/-- `TARGET_RSSI = -46` (`test24.py`, `test12.py`, `test25.py`). -/
def TARGET_RSSI_T24 : ℚ := -46

/-- The free-space scores produced by `VisionObstacleScorer.score`. -/
structure VisionScores where
  freeLeft : ℚ
  freeRight : ℚ
  freeAhead : ℚ
  windowRisk : Bool
deriving DecidableEq

/-- `test24.py` lines 580-582: `steer = VISION_STEER_GAIN * (free_right -
free_left) * MAX_STEER_ANGLE`, then `int(clamp(steer, -MAX_STEER_ANGLE,
MAX_STEER_ANGLE))`. -/
def visionSteer (sc : VisionScores) : ℤ :=
  pyInt (clamp (VISION_STEER_GAIN * (sc.freeRight - sc.freeLeft) * MAX_STEER_ANGLE)
    (-MAX_STEER_ANGLE) MAX_STEER_ANGLE)

/-- `scan_surroundings` return value (`test24.py` line 493, `test12.py`
line 147): `-1 if dist_left > dist_right else 1`. -/
def scanDir (distLeft distRight : ℚ) : ℤ :=
  if distRight < distLeft then -1 else 1

/-- The SEARCH spiral update (`test24.py` lines 619-622, `test12.py`
lines 207-210): `+= 0.05` while negative, else reset to `-MAX_STEER_ANGLE`. -/
def spiralNext (a : ℚ) : ℚ :=
  if a < 0 then a + 1/20 else -MAX_STEER_ANGLE

/-- The spiral angles reachable in the control loop: `-MAX_STEER_ANGLE`
initially (`test24.py` line 428, `test12.py` line 87), closed under the
SEARCH update. -/
inductive SpiralReach : ℚ → Prop
  | init : SpiralReach (-MAX_STEER_ANGLE)
  | step (a : ℚ) : SpiralReach a → SpiralReach (spiralNext a)

/-- `test24.py` lines 567-570 (same shape as `test12.py` lines 171-173): the
ultrasonic hard-safety gate sends any non-FINISH state to AVOID when
`0 < dist_cm < OBSTACLE_DIST_CM`. -/
def ultrasonicGate (state : NavState) (dist : Option ℚ) : NavState :=
  match dist with
  | some d =>
    if 0 < d ∧ d < OBSTACLE_DIST_CM ∧ state ≠ NavState.FINISH then NavState.AVOID
    else state
  | none => state

/-- `test24.py` lines 572-583: in SEARCH or APPROACH with vision scores
available, either escalate to AVOID (blocked ahead or window risk) or emit
the clamped vision steering command.  Returns the possibly-updated state and
the steering angles emitted by this block. -/
def visionGate (state : NavState) (scores : Option VisionScores) :
    NavState × List ℤ :=
  match scores with
  | some sc =>
    if state = NavState.SEARCH ∨ state = NavState.APPROACH then
      if sc.freeAhead < VISION_FREE_AHEAD_MIN ∨ sc.windowRisk then (NavState.AVOID, [])
      else (state, [visionSteer sc])
    else (state, [])
  | none => (state, [])

/-- The AVOID turn direction of `test24.py` lines 588-592: from the vision
scores when available (`-1 if free_left > free_right else 1`), otherwise from
the ultrasonic `scan_surroundings`. -/
def avoidDir (scores : Option VisionScores) (distLeft distRight : ℚ) : ℤ :=
  match scores with
  | some sc => if sc.freeRight < sc.freeLeft then -1 else 1
  | none => scanDir distLeft distRight

/-- The steering angles emitted by the state-machine branch of `test24.py`'s
loop (lines 586-643): AVOID backs up straight then turns `direction *
MAX_STEER_ANGLE` toward the freer side; SEARCH straightens on signal capture
or steers `int(spiral_angle)`; APPROACH wiggles
`int(clamp(20, -MAX_STEER_ANGLE, MAX_STEER_ANGLE))` on a degrading trend;
FINISH straightens to 0. -/
def stateSteers (state : NavState) (rssi lastRssi : ℚ)
    (scores : Option VisionScores) (distLeft distRight spiral : ℚ) : List ℤ :=
  match state with
  | NavState.AVOID =>
    [0, avoidDir scores distLeft distRight * 35]
  | NavState.SEARCH =>
    if APPROACH_THRESHOLD_T24 < rssi then [0] else [pyInt spiral]
  | NavState.APPROACH =>
    if TARGET_RSSI_T24 ≤ rssi then []
    else if 0 ≤ rssi - lastRssi then []
    else [pyInt (clamp 20 (-MAX_STEER_ANGLE) MAX_STEER_ANGLE)]
  | NavState.VERIFY => []
  | NavState.FINISH => [0]

/-- All steering angles one tick of `test24.py`'s loop emits, in source
order: the vision block's command (if any) followed by the state branch's
commands, with the state as updated by the two safety gates. -/
def motionSteers (state : NavState) (rssi lastRssi : ℚ) (dist : Option ℚ)
    (scores : Option VisionScores) (distLeft distRight spiral : ℚ) : List ℤ :=
  let g := visionGate (ultrasonicGate state dist) scores
  g.2 ++ stateSteers g.1 rssi lastRssi scores distLeft distRight spiral

/-! ### Proof devices: invariants and concrete traces -/

/-- Invariant carried by the filter state under `final_version`-style ticks
with `R = 2`, `Q = 0.05`: positive variance large enough
(`Q·R ≤ P² + Q·P`, i.e. `P` at or above the fixed point of the variance
recursion) that each measurement update shrinks it. -/
def KfInv (kf : RSSIKalmanFilter) : Prop :=
  kf.R = MEASUREMENT_NOISE_R ∧ kf.Q = PROCESS_NOISE_Q ∧ 0 < kf.P ∧
    kf.Q * kf.R ≤ kf.P ^ 2 + kf.Q * kf.P

/-- Tick inputs reaching VERIFY and then meeting two consecutive close
ultrasonic readings, for the `final_version.py` machine. -/
def c3trace : List (ℚ × Option ℚ) :=
  [(-50, some 100), (-40, some 100), (-40, some 10), (-40, some 10)]

/-- The filtered-signal sequence of the C9 end-to-end scenario, paired with
absent ultrasonic readings (no obstacles). -/
def c9trace : List (ℚ × Option ℚ) :=
  [(-70, none), (-68, none), (-60, none), (-52, none),
   (-44, none), (-44, none), (-44, none), (-44, none)]

/-- A 30-sample VERIFY episode of which exactly 5 samples are at or above the
target `-46`: 25 weak samples then 5 strong ones. -/
def c1samples : List ℚ :=
  List.replicate 25 (-50) ++ List.replicate 5 (-40)

/-! ## Theorems -/

/-- C8: when `filter` is called with no new measurement it returns the
previous estimate and leaves the whole filter state (both `x` and `P`)
unchanged, and the controller tick's filtered signal falls back to the last
known filtered signal unchanged. -/
theorem c8_missing_measurement_frame (kf : RSSIKalmanFilter) (lastRssi : ℚ) :
    kf.filter none = (kf, kf.x) ∧ tickFilter kf lastRssi none = (kf, lastRssi) :=
  ⟨rfl, rfl⟩

/-- C10: whenever the recursive filter is called with a present measurement
`z` differing from the current estimate `x` (with `R > 0`, `Q > 0`, `P > 0`),
the returned new estimate lies strictly between `x` and `z`. -/
theorem c10_filter_strictly_between (R Q x P z : ℚ)
    (hR : 0 < R) (hQ : 0 < Q) (hP : 0 < P) (hzx : z ≠ x) :
    (x < z → x < ((RSSIKalmanFilter.mk R Q x P).filter (some z)).2 ∧
             ((RSSIKalmanFilter.mk R Q x P).filter (some z)).2 < z) ∧
    (z < x → z < ((RSSIKalmanFilter.mk R Q x P).filter (some z)).2 ∧
             ((RSSIKalmanFilter.mk R Q x P).filter (some z)).2 < x) := by
  have hval : ((RSSIKalmanFilter.mk R Q x P).filter (some z)).2
      = x + (P + Q) / (P + Q + R) * (z - x) := rfl
  have hden : 0 < P + Q + R := by linarith
  have hK0 : 0 < (P + Q) / (P + Q + R) := div_pos (by linarith) hden
  have hK1 : (P + Q) / (P + Q + R) < 1 := (div_lt_one hden).mpr (by linarith)
  rw [hval]
  constructor
  · intro h
    constructor
    · nlinarith [mul_pos hK0 (sub_pos.mpr h)]
    · nlinarith [mul_pos (sub_pos.mpr hK1) (sub_pos.mpr h)]
  · intro h
    constructor
    · nlinarith [mul_pos (sub_pos.mpr hK1) (sub_pos.mpr h)]
    · nlinarith [mul_pos hK0 (sub_pos.mpr h)]

theorem c10_witness :
    (0:ℚ) < 2 ∧ (0:ℚ) < 1/20 ∧ (0:ℚ) < 1 ∧ ((-60:ℚ) ≠ -70) ∧
    ((((-70:ℚ) < -60) →
        -70 < ((RSSIKalmanFilter.mk 2 (1/20) (-70) 1).filter (some (-60))).2 ∧
        ((RSSIKalmanFilter.mk 2 (1/20) (-70) 1).filter (some (-60))).2 < -60) ∧
     (((-60:ℚ) < -70) →
        -60 < ((RSSIKalmanFilter.mk 2 (1/20) (-70) 1).filter (some (-60))).2 ∧
        ((RSSIKalmanFilter.mk 2 (1/20) (-70) 1).filter (some (-60))).2 < -70)) :=
  ⟨by norm_num, by norm_num, by norm_num, by norm_num,
    c10_filter_strictly_between 2 (1/20) (-70) 1 (-60)
      (by norm_num) (by norm_num) (by norm_num) (by norm_num)⟩

/-- C5 counterexample: with the debounce counter at 1, a distance reading of
0 sends `check_obstacle` into the `else` branch, resetting the counter to 0 —
a zero reading is NOT excluded from the reset branch as the claim states
(the claim would leave the counter at 1). -/
theorem c5_counterexample :
    (check_obstacle 1 (some 0)).1 = 0 ∧ (0 : ℕ) ≠ 1 := by
  refine ⟨?_, by decide⟩
  simp [check_obstacle, obstacleHit]

/-- C5 amended: a distance reading of 0, a missing reading, or a reading at
or above the threshold (the code has no separate implausibility ceiling: any
value not strictly between 0 and `OBSTACLE_DIST_CM` behaves alike) is treated
as "no obstacle", not as "no reading": it falls into the reset branch —
resetting the debounce counter to 0, never incrementing it — and such a call
never reports a confirmed obstacle; it is never treated as "very close". -/
theorem c5_amended (c : ℕ) (d : ℚ) (hd : OBSTACLE_DIST_CM ≤ d) :
    check_obstacle c (some 0) = (0, false) ∧
    check_obstacle c none = (0, false) ∧
    check_obstacle c (some d) = (0, false) := by
  refine ⟨by simp [check_obstacle, obstacleHit], by simp [check_obstacle, obstacleHit], ?_⟩
  have hhit : obstacleHit (some d) = false := by
    simp only [obstacleHit, decide_eq_false_iff_not]
    rintro ⟨-, -, hlt⟩
    exact absurd hd (not_le.mpr hlt)
  simp [check_obstacle, hhit]

theorem c5_amended_witness :
    OBSTACLE_DIST_CM ≤ (30:ℚ) ∧
    (check_obstacle 1 (some 0) = (0, false) ∧
     check_obstacle 1 none = (0, false) ∧
     check_obstacle 1 (some 30) = (0, false)) :=
  ⟨by norm_num [OBSTACLE_DIST_CM], c5_amended 1 30 (by norm_num [OBSTACLE_DIST_CM])⟩

theorem check_obstacle_fst (c : ℕ) (d : Option ℚ) :
    (check_obstacle c d).1 = if obstacleHit d then c + 1 else 0 := rfl

theorem obstacleCounterAfter_append (c0 : ℕ) (ds : List (Option ℚ)) (d : Option ℚ) :
    obstacleCounterAfter c0 (ds ++ [d]) =
      if obstacleHit d then obstacleCounterAfter c0 ds + 1 else 0 := by
  simp [obstacleCounterAfter, List.foldl_append, check_obstacle]

theorem trailingHits_append (ds : List (Option ℚ)) (d : Option ℚ) :
    trailingHits (ds ++ [d]) = if obstacleHit d then trailingHits ds + 1 else 0 := by
  simp [trailingHits, List.reverse_append, leadingHits]

theorem obstacleCounterAfter_eq_trailingHits (ds : List (Option ℚ)) :
    obstacleCounterAfter 0 ds = trailingHits ds := by
  induction ds using List.reverseRecOn with
  | nil => rfl
  | append_singleton ds d ih =>
    rw [obstacleCounterAfter_append, trailingHits_append, ih]

theorem obstacleReports_all_false (ds : List (Option ℚ)) :
    ∀ c0 : ℕ, (∀ e ∈ ds, obstacleHit e = false) →
      ∀ b ∈ obstacleReports c0 ds, b = false := by
  induction ds with
  | nil => intro c0 _ b hb; simp [obstacleReports] at hb
  | cons d ds ih =>
    intro c0 h b hb
    have hd : obstacleHit d = false := h d (List.mem_cons_self d ds)
    simp only [obstacleReports, List.mem_cons] at hb
    rcases hb with hb | hb
    · subst hb; simp [check_obstacle, hd]
    · exact ih (check_obstacle c0 d).1 (fun e he => h e (List.mem_cons_of_mem d he)) b hb

/-- C4: `check_obstacle` returns true exactly when the count of consecutive
confirmed-close readings (`0 < d < OBSTACLE_DIST_CM`) has reached the
debounce threshold 2: after any reading history `ds`, the call on the next
reading `d` reports true iff the trailing run of confirmed-close readings of
`ds ++ [d]` has length ≥ 2; a single close reading followed by far readings
never reports true; and two consecutive close readings always report true on
the second one, from any starting counter. -/
theorem c4_obstacle_debounce :
    (∀ (ds : List (Option ℚ)) (d : Option ℚ),
       (check_obstacle (obstacleCounterAfter 0 ds) d).2 =
         decide (2 ≤ trailingHits (ds ++ [d]))) ∧
    (∀ (d : Option ℚ) (ds : List (Option ℚ)),
       obstacleHit d = true → (∀ e ∈ ds, obstacleHit e = false) →
       ∀ b ∈ obstacleReports 0 (d :: ds), b = false) ∧
    (∀ (c0 : ℕ) (d1 d2 : Option ℚ),
       obstacleHit d1 = true → obstacleHit d2 = true →
       (check_obstacle (check_obstacle c0 d1).1 d2).2 = true) := by
  refine ⟨?_, ?_, ?_⟩
  · intro ds d
    rw [show (check_obstacle (obstacleCounterAfter 0 ds) d).2
        = decide (2 ≤ (check_obstacle (obstacleCounterAfter 0 ds) d).1) from rfl,
      check_obstacle_fst, trailingHits_append, obstacleCounterAfter_eq_trailingHits]
  · intro d ds hd hds b hb
    simp only [obstacleReports, List.mem_cons] at hb
    rcases hb with hb | hb
    · subst hb; simp [check_obstacle, hd]
    · exact obstacleReports_all_false ds (check_obstacle 0 d).1 hds b hb
  · intro c0 d1 d2 h1 h2
    simp [check_obstacle, h1, h2]

theorem c4_witness :
    obstacleHit (some 10) = true ∧ obstacleHit (some 40) = false ∧
    (∀ b ∈ obstacleReports 0 [some 10, some 40, some 40], b = false) ∧
    (check_obstacle (check_obstacle 7 (some 10)).1 (some 10)).2 = true := by
  have h40 : obstacleHit (some (40:ℚ)) = false := by decide
  have h10 : obstacleHit (some (10:ℚ)) = true := by decide
  exact ⟨h10, h40,
    c4_obstacle_debounce.2.1 (some 10) [some 40, some 40] h10
      (by intro e he; simp only [List.mem_cons, List.not_mem_nil, or_false] at he
          rcases he with rfl | rfl <;> exact h40),
    c4_obstacle_debounce.2.2 7 (some 10) (some 10) h10 h10⟩

theorem kfStep_P (kf : RSSIKalmanFilter) (z : ℚ) :
    (kfStep kf z).P = (1 - (kf.P + kf.Q) / (kf.P + kf.Q + kf.R)) * (kf.P + kf.Q) := rfl

theorem kfStep_decreases (kf : RSSIKalmanFilter) (z : ℚ) (h : KfInv kf) :
    (kfStep kf z).P ≤ kf.P ∧ KfInv (kfStep kf z) := by
  obtain ⟨hR, hQ, hP, hfix⟩ := h
  rw [MEASUREMENT_NOISE_R] at hR
  rw [PROCESS_NOISE_Q] at hQ
  rw [hR, hQ] at hfix
  have hs : (0:ℚ) < kf.P + 1/20 := by linarith
  have hs2 : (0:ℚ) < kf.P + 1/20 + 2 := by linarith
  have hPval : (kfStep kf z).P = 2 * (kf.P + 1/20) / (kf.P + 1/20 + 2) := by
    rw [kfStep_P, hR, hQ]
    field_simp
    ring
  have hRstep : (kfStep kf z).R = kf.R := rfl
  have hQstep : (kfStep kf z).Q = kf.Q := rfl
  have hP' : (0:ℚ) < (kfStep kf z).P := by
    rw [hPval]
    exact div_pos (by linarith) hs2
  refine ⟨?_, hRstep.trans hR, hQstep.trans hQ, hP', ?_⟩
  · rw [hPval, div_le_iff hs2]
    nlinarith [hfix]
  · rw [hRstep, hQstep, hR, hQ, hPval]
    have hsq : (0:ℚ) < (kf.P + 1/20 + 2)^2 := by positivity
    have key : (1/20 * 2 : ℚ) ≤
        (4*(kf.P+1/20)^2 + (1/10)*(kf.P+1/20)*(kf.P+1/20+2)) / (kf.P+1/20+2)^2 := by
      rw [le_div_iff hsq]
      nlinarith [hfix]
    calc (1/20 * 2 : ℚ)
        ≤ (4*(kf.P+1/20)^2 + (1/10)*(kf.P+1/20)*(kf.P+1/20+2)) / (kf.P+1/20+2)^2 := key
      _ = (2*(kf.P+1/20)/(kf.P+1/20+2))^2 + 1/20*(2*(kf.P+1/20)/(kf.P+1/20+2)) := by
          field_simp
          ring

theorem varianceTrace_chain (zs : List ℚ) :
    ∀ kf : RSSIKalmanFilter, KfInv kf →
      List.Chain' (fun a b => b ≤ a) (varianceTrace kf zs) := by
  induction zs with
  | nil =>
    intro kf _
    simp [varianceTrace]
  | cons z zs ih =>
    intro kf h
    have hstep := kfStep_decreases kf z h
    have htail := ih (kfStep kf z) hstep.2
    have hhead : ((List.scanl kfStep (kfStep kf z) zs).map RSSIKalmanFilter.P).head?
        = some (kfStep kf z).P := by
      cases zs <;> simp [List.scanl]
    simp only [varianceTrace, List.scanl, List.map_cons] at htail ⊢
    rw [List.chain'_cons']
    refine ⟨?_, htail⟩
    intro b hb
    rw [hhead] at hb
    simp only [Option.mem_def, Option.some.injEq] at hb
    exact hb ▸ hstep.1

/-- C7: starting from the filter's initial state (`P = 1.0`) with `R = 2.0`
and `Q = 0.05`, for every sequence of ticks on each of which a measurement is
present, the sequence of reported variances `P` is non-increasing. -/
theorem c7_variance_nonincreasing (x0 : ℚ) (zs : List ℚ) :
    List.Chain' (fun a b => b ≤ a)
      (varianceTrace (RSSIKalmanFilter.init MEASUREMENT_NOISE_R PROCESS_NOISE_Q x0) zs) := by
  apply varianceTrace_chain
  refine ⟨rfl, rfl, ?_, ?_⟩
  · norm_num [RSSIKalmanFilter.init]
  · norm_num [RSSIKalmanFilter.init, MEASUREMENT_NOISE_R, PROCESS_NOISE_Q]

theorem verifyReports_getD (total required : ℕ) (target : ℚ) :
    ∀ (ss : List ℚ) (st : VerifySt) (k : ℕ), k < ss.length →
      (verifyReports total required target st ss).getD k none =
        if total ≤ st.counter + (k + 1) then
          some (decide (required ≤
            st.hits + (ss.take (k + 1)).countP (fun s => decide (target ≤ s))))
        else none := by
  intro ss
  induction ss with
  | nil => intro st k hk; simp at hk
  | cons s ss ih =>
    intro st k hk
    cases k with
    | zero =>
      simp only [verifyReports, List.getD_cons_zero, List.take_succ_cons, List.take_zero,
        List.countP_cons, List.countP_nil, handle_verify]
      by_cases hts : target ≤ s
      · simp [hts]
      · simp [hts]
    | succ k =>
      have hk' : k < ss.length := by simpa using hk
      have e1 : (handle_verify total required target st s).1.counter + (k + 1)
          = st.counter + (k + 1 + 1) := by
        simp only [handle_verify]
        omega
      have e2 : (handle_verify total required target st s).1.hits +
            (ss.take (k + 1)).countP (fun x => decide (target ≤ x))
          = st.hits + ((s :: ss).take (k + 1 + 1)).countP (fun x => decide (target ≤ x)) := by
        simp only [List.take_succ_cons, List.countP_cons, handle_verify]
        by_cases hts : target ≤ s <;> simp [hts] <;> omega
      simp only [verifyReports, List.getD_cons_succ]
      rw [ih (handle_verify total required target st s).1 k hk', e1, e2]

/-- C1: the verification gate increments `checks_done` on every call and
increments `hits` iff the sample is at or above the target; running from
fresh counters it reports nothing on any call before the `TOTAL_CHECKS`-th
and on exactly that call reports confirmed iff `hits ≥ REQUIRED_HITS`; in
particular, for any fixed sequence of 30 samples of which exactly 5 are ≥
target, with `REQUIRED_HITS = 4` and `TOTAL_CHECKS = 30`, the outcome is
confirmed on the 30th call and on none of the earlier calls. -/
theorem c1_verification_gate :
    (∀ (total required : ℕ) (target rssi : ℚ) (st : VerifySt),
       (handle_verify total required target st rssi).1.counter = st.counter + 1 ∧
       ((handle_verify total required target st rssi).1.hits = st.hits + 1 ↔ target ≤ rssi)) ∧
    (∀ (total required : ℕ) (target : ℚ) (ss : List ℚ) (k : ℕ), k < ss.length →
       (k + 1 < total →
         (verifyReports total required target ⟨0, 0⟩ ss).getD k none = none) ∧
       (k + 1 = total →
         (verifyReports total required target ⟨0, 0⟩ ss).getD k none =
           some (decide (required ≤ (ss.take total).countP (fun s => decide (target ≤ s)))))) ∧
    (∀ (target : ℚ) (ss : List ℚ), ss.length = 30 →
       ss.countP (fun s => decide (target ≤ s)) = 5 →
       (verifyReports 30 4 target ⟨0, 0⟩ ss).getD 29 none = some true ∧
       (∀ j : ℕ, j < 29 → (verifyReports 30 4 target ⟨0, 0⟩ ss).getD j none = none)) := by
  have hchar := verifyReports_getD
  refine ⟨?_, ?_, ?_⟩
  · intro total required target rssi st
    refine ⟨rfl, ?_⟩
    simp only [handle_verify]
    by_cases hts : target ≤ rssi
    · simp [hts]
    · simp only [hts, if_false, iff_false]
      omega
  · intro total required target ss k hk
    constructor
    · intro hlt
      rw [hchar total required target ss ⟨0, 0⟩ k hk,
        if_neg (show ¬ total ≤ 0 + (k + 1) by omega)]
    · intro heq
      rw [hchar total required target ss ⟨0, 0⟩ k hk,
        if_pos (show total ≤ 0 + (k + 1) by omega), heq]
      simp
  · intro target ss hlen hcount
    have htake : ss.take 30 = ss := List.take_of_length_le (by omega)
    constructor
    · rw [hchar 30 4 target ss ⟨0, 0⟩ 29 (by omega),
        if_pos (show 30 ≤ 0 + (29 + 1) by omega)]
      norm_num [htake, hcount]
    · intro j hj
      rw [hchar 30 4 target ss ⟨0, 0⟩ j (by omega),
        if_neg (show ¬ 30 ≤ 0 + (j + 1) by omega)]

theorem c1_witness :
    ((handle_verify 30 4 (-46) ⟨0, 0⟩ (-40)).1.counter = 0 + 1 ∧
     ((handle_verify 30 4 (-46) ⟨0, 0⟩ (-40)).1.hits = 0 + 1 ↔ (-46:ℚ) ≤ -40)) ∧
    (29 < c1samples.length) ∧
    ((29 + 1 < 30 →
       (verifyReports 30 4 (-46) ⟨0, 0⟩ c1samples).getD 29 none = none) ∧
     (29 + 1 = 30 →
       (verifyReports 30 4 (-46) ⟨0, 0⟩ c1samples).getD 29 none =
         some (decide (4 ≤ (c1samples.take 30).countP (fun s => decide ((-46:ℚ) ≤ s)))))) ∧
    (c1samples.length = 30) ∧ (c1samples.countP (fun s => decide ((-46:ℚ) ≤ s)) = 5) ∧
    ((verifyReports 30 4 (-46) ⟨0, 0⟩ c1samples).getD 29 none = some true ∧
     ∀ j : ℕ, j < 29 → (verifyReports 30 4 (-46) ⟨0, 0⟩ c1samples).getD j none = none) :=
  ⟨c1_verification_gate.1 30 4 (-46) (-40) ⟨0, 0⟩,
   by decide,
   c1_verification_gate.2.1 30 4 (-46) c1samples 29 (by decide),
   by decide,
   by decide,
   c1_verification_gate.2.2 (-46) c1samples (by decide) (by decide)⟩

theorem spiralReach_bounds (a : ℚ) (h : SpiralReach a) :
    -MAX_STEER_ANGLE ≤ a ∧ a < 1/20 := by
  induction h with
  | init => norm_num [MAX_STEER_ANGLE]
  | step a ha ih =>
    unfold spiralNext
    split
    · exact ⟨by linarith [ih.1], by linarith [show a < 0 from ‹_›]⟩
    · norm_num [MAX_STEER_ANGLE]

theorem scanDir_cases (dl dr : ℚ) : scanDir dl dr = -1 ∨ scanDir dl dr = 1 := by
  unfold scanDir
  split <;> simp

theorem avoidDir_cases (scores : Option VisionScores) (dl dr : ℚ) :
    avoidDir scores dl dr = -1 ∨ avoidDir scores dl dr = 1 := by
  rcases scores with _ | sc
  · exact scanDir_cases dl dr
  · simp only [avoidDir]
    split <;> simp

theorem visionSteer_bounds (sc : VisionScores) :
    -35 ≤ visionSteer sc ∧ visionSteer sc ≤ 35 := by
  have hcl := clamp_mem (VISION_STEER_GAIN * (sc.freeRight - sc.freeLeft) * MAX_STEER_ANGLE)
      (-MAX_STEER_ANGLE) MAX_STEER_ANGLE (by norm_num [MAX_STEER_ANGLE])
  refine pyInt_mem _ (-35) 35 (by norm_num) (by norm_num) ?_ ?_
  · calc ((-35:ℤ):ℚ) = -MAX_STEER_ANGLE := by norm_num [MAX_STEER_ANGLE]
      _ ≤ _ := hcl.1
  · calc clamp (VISION_STEER_GAIN * (sc.freeRight - sc.freeLeft) * MAX_STEER_ANGLE)
          (-MAX_STEER_ANGLE) MAX_STEER_ANGLE
        ≤ MAX_STEER_ANGLE := hcl.2
      _ = ((35:ℤ):ℚ) := by norm_num [MAX_STEER_ANGLE]

theorem visionGate_steer (st : NavState) (scores : Option VisionScores) (a : ℤ)
    (ha : a ∈ (visionGate st scores).2) : ∃ sc, a = visionSteer sc := by
  rcases scores with _ | sc
  · simp [visionGate] at ha
  · simp only [visionGate] at ha
    split at ha
    · split at ha
      · simp at ha
      · simp at ha
        exact ⟨sc, ha⟩
    · simp at ha

theorem stateSteers_bounds (st : NavState) (rssi lastRssi : ℚ)
    (scores : Option VisionScores) (dl dr spiral : ℚ)
    (h1 : -MAX_STEER_ANGLE ≤ spiral) (h2 : spiral < 1/20) :
    ∀ a ∈ stateSteers st rssi lastRssi scores dl dr spiral, -35 ≤ a ∧ a ≤ 35 := by
  intro a ha
  cases st with
  | AVOID =>
    simp only [stateSteers, List.mem_cons, List.not_mem_nil, or_false] at ha
    rcases ha with rfl | rfl
    · exact ⟨by norm_num, by norm_num⟩
    · rcases avoidDir_cases scores dl dr with h | h <;> rw [h] <;> constructor <;> decide
  | SEARCH =>
    simp only [stateSteers] at ha
    split at ha <;> simp only [List.mem_singleton] at ha <;> subst ha
    · exact ⟨by norm_num, by norm_num⟩
    · refine pyInt_mem spiral (-35) 35 (by norm_num) (by norm_num) ?_ ?_
      · rw [MAX_STEER_ANGLE] at h1
        push_cast
        linarith
      · push_cast
        linarith
  | APPROACH =>
    simp only [stateSteers] at ha
    split at ha
    · simp at ha
    · split at ha
      · simp at ha
      · simp only [List.mem_singleton] at ha
        subst ha
        have : clamp 20 (-MAX_STEER_ANGLE) MAX_STEER_ANGLE = 20 := by
          norm_num [clamp, MAX_STEER_ANGLE]
        rw [this]
        constructor <;> norm_num [pyInt]
  | VERIFY => simp [stateSteers] at ha
  | FINISH =>
    simp only [stateSteers, List.mem_singleton] at ha
    subst ha
    exact ⟨by norm_num, by norm_num⟩

/-- C2: for every input combination — state, trend (current and previous
filtered signal), ultrasonic reading, vision scores, scan distances and any
reachable spiral angle — every steering angle the motion code emits in one
tick lies within `[-MAX_STEER_ANGLE, MAX_STEER_ANGLE] = [-35, 35]`. -/
theorem c2_steer_in_range (state : NavState) (rssi lastRssi : ℚ) (dist : Option ℚ)
    (scores : Option VisionScores) (distLeft distRight spiral : ℚ)
    (hs : SpiralReach spiral) :
    ∀ a ∈ motionSteers state rssi lastRssi dist scores distLeft distRight spiral,
      -35 ≤ a ∧ a ≤ 35 := by
  have hspb := spiralReach_bounds spiral hs
  intro a ha
  simp only [motionSteers, List.mem_append] at ha
  rcases ha with ha | ha
  · obtain ⟨sc, rfl⟩ := visionGate_steer _ _ _ ha
    exact visionSteer_bounds sc
  · exact stateSteers_bounds _ _ _ _ _ _ _ hspb.1 hspb.2 a ha

theorem c2_witness :
    SpiralReach (-MAX_STEER_ANGLE) ∧
    ∀ a ∈ motionSteers NavState.SEARCH (-70) (-70) none none 0 0 (-MAX_STEER_ANGLE),
      -35 ≤ a ∧ a ≤ 35 :=
  ⟨SpiralReach.init,
   c2_steer_in_range NavState.SEARCH (-70) (-70) none none 0 0 (-MAX_STEER_ANGLE)
     SpiralReach.init⟩

/-- C3 counterexample: in `final_version.py` the obstacle guard excludes only
FINISH (`if self.state != "FINISH" and self.check_obstacle()`), so a
confirmed obstacle DOES preempt VERIFY.  Concretely: after three ticks of
`c3trace` the controller is in VERIFY, and the second consecutive close
ultrasonic reading on the fourth tick triggers the avoidance maneuver, which
transitions the controller out of VERIFY (into SEARCH). -/
theorem c3_counterexample :
    (fvRun APPROACH_THRESHOLD_FV TARGET_RSSI_FV VERIFY_TOTAL_CHECKS_FV VERIFY_REQUIRED_HITS_FV
        fvInit (c3trace.take 3)).state = NavState.VERIFY ∧
    (fvRun APPROACH_THRESHOLD_FV TARGET_RSSI_FV VERIFY_TOTAL_CHECKS_FV VERIFY_REQUIRED_HITS_FV
        fvInit c3trace).state = NavState.SEARCH := by
  have h1 : fvTick APPROACH_THRESHOLD_FV TARGET_RSSI_FV VERIFY_TOTAL_CHECKS_FV
      VERIFY_REQUIRED_HITS_FV fvInit (-50) (some 100)
      = ⟨NavState.APPROACH, -50, 0, 0, ⟨0, 0⟩⟩ := by
    simp [fvTick, fvInit, handle_search, check_obstacle, obstacleHit,
      APPROACH_THRESHOLD_FV, OBSTACLE_DIST_CM] <;> norm_num
  have h2 : fvTick APPROACH_THRESHOLD_FV TARGET_RSSI_FV VERIFY_TOTAL_CHECKS_FV
      VERIFY_REQUIRED_HITS_FV ⟨NavState.APPROACH, -50, 0, 0, ⟨0, 0⟩⟩ (-40) (some 100)
      = ⟨NavState.VERIFY, -40, 0, 0, ⟨0, 0⟩⟩ := by
    simp [fvTick, handle_approach, check_obstacle, obstacleHit,
      TARGET_RSSI_FV, OBSTACLE_DIST_CM] <;> norm_num
  have h3 : fvTick APPROACH_THRESHOLD_FV TARGET_RSSI_FV VERIFY_TOTAL_CHECKS_FV
      VERIFY_REQUIRED_HITS_FV ⟨NavState.VERIFY, -40, 0, 0, ⟨0, 0⟩⟩ (-40) (some 10)
      = ⟨NavState.VERIFY, -40, 0, 1, ⟨1, 1⟩⟩ := by
    simp [fvTick, fvVerifyStep, handle_verify, check_obstacle, obstacleHit,
      TARGET_RSSI_FV, VERIFY_TOTAL_CHECKS_FV, VERIFY_REQUIRED_HITS_FV,
      OBSTACLE_DIST_CM] <;> norm_num
  have h4 : fvTick APPROACH_THRESHOLD_FV TARGET_RSSI_FV VERIFY_TOTAL_CHECKS_FV
      VERIFY_REQUIRED_HITS_FV ⟨NavState.VERIFY, -40, 0, 1, ⟨1, 1⟩⟩ (-40) (some 10)
      = ⟨NavState.SEARCH, -40, 0, 2, ⟨1, 1⟩⟩ := by
    simp [fvTick, check_obstacle, obstacleHit, OBSTACLE_DIST_CM] <;> norm_num
  have htake : c3trace.take 3 = [(-50, some 100), (-40, some 100), (-40, some 10)] := rfl
  constructor
  · rw [htake]
    simp only [fvRun, List.foldl]
    rw [h1, h2, h3]
  · show (fvRun _ _ _ _ fvInit
      [(-50, some 100), (-40, some 100), (-40, some 10), (-40, some 10)]).state = _
    simp only [fvRun, List.foldl]
    rw [h1, h2, h3, h4]

/-- C3 corrected: per-tick preemption in the two cited variants.  In
`final_version.py` a tick starting in FINISH never changes anything, and a
confirmed obstacle preempts every other state — SEARCH and APPROACH but also
VERIFY — triggering the avoidance maneuver that ends in SEARCH.  In
`test25.py` the obstacle logic is skipped in VERIFY and FINISH (state and
debounce counter untouched, so an obstacle never causes a transition out of
them), and a confirmed obstacle moves SEARCH or APPROACH to AVOID. -/
theorem c3_amended :
    (∀ (apT tgT : ℚ) (tc rh : ℕ) (st : FvSt) (rssi : ℚ) (dist : Option ℚ),
       st.state = NavState.FINISH → fvTick apT tgT tc rh st rssi dist = st) ∧
    (∀ (apT tgT : ℚ) (tc rh : ℕ) (st : FvSt) (rssi : ℚ) (dist : Option ℚ),
       st.state ≠ NavState.FINISH →
       (check_obstacle st.obstacleCounter dist).2 = true →
       (fvTick apT tgT tc rh st rssi dist).state = NavState.SEARCH) ∧
    (∀ (state : NavState) (c : ℕ) (dist : Option ℚ),
       state = NavState.VERIFY ∨ state = NavState.FINISH →
       t25ObstacleGate state c dist = (state, c)) ∧
    (∀ (state : NavState) (c : ℕ) (d : ℚ),
       (state = NavState.SEARCH ∨ state = NavState.APPROACH) →
       0 < d → d < OBSTACLE_DIST_CM → OBSTACLE_CONFIRM_COUNT ≤ c + 1 →
       t25ObstacleGate state c (some d) = (NavState.AVOID, 0)) := by
  refine ⟨?_, ?_, ?_, ?_⟩
  · intro apT tgT tc rh st rssi dist h
    simp [fvTick, h]
  · intro apT tgT tc rh st rssi dist h hob
    simp [fvTick, h, hob]
  · intro state c dist h
    rcases h with rfl | rfl <;> simp [t25ObstacleGate]
  · intro state c d h h0 hlt hcc
    have hcond : (0 < d ∧ d < OBSTACLE_DIST_CM) := ⟨h0, hlt⟩
    rcases h with rfl | rfl <;>
      simp [t25ObstacleGate, hcond, hcc]

theorem c3_amended_witness :
    ((⟨NavState.FINISH, -40, 0, 0, ⟨0, 0⟩⟩ : FvSt).state = NavState.FINISH ∧
     fvTick (-53) (-97/2) 20 4 ⟨NavState.FINISH, -40, 0, 0, ⟨0, 0⟩⟩ (-40) (some 10) =
       ⟨NavState.FINISH, -40, 0, 0, ⟨0, 0⟩⟩) ∧
    ((⟨NavState.VERIFY, -40, 0, 1, ⟨2, 1⟩⟩ : FvSt).state ≠ NavState.FINISH ∧
     (check_obstacle (⟨NavState.VERIFY, -40, 0, 1, ⟨2, 1⟩⟩ : FvSt).obstacleCounter
        (some 10)).2 = true ∧
     (fvTick (-53) (-97/2) 20 4 ⟨NavState.VERIFY, -40, 0, 1, ⟨2, 1⟩⟩ (-40)
        (some 10)).state = NavState.SEARCH) ∧
    ((NavState.VERIFY = NavState.VERIFY ∨ NavState.VERIFY = NavState.FINISH) ∧
     t25ObstacleGate NavState.VERIFY 5 (some 10) = (NavState.VERIFY, 5)) ∧
    ((NavState.SEARCH = NavState.SEARCH ∨ NavState.SEARCH = NavState.APPROACH) ∧
     (0:ℚ) < 10 ∧ (10:ℚ) < OBSTACLE_DIST_CM ∧ OBSTACLE_CONFIRM_COUNT ≤ 2 + 1 ∧
     t25ObstacleGate NavState.SEARCH 2 (some 10) = (NavState.AVOID, 0)) := by
  refine ⟨⟨rfl, c3_amended.1 (-53) (-97/2) 20 4 _ (-40) (some 10) rfl⟩,
    ⟨by decide, by decide, c3_amended.2.1 (-53) (-97/2) 20 4 _ (-40) (some 10)
       (by decide) (by decide)⟩,
    ⟨Or.inl rfl, c3_amended.2.2.1 NavState.VERIFY 5 (some 10) (Or.inl rfl)⟩,
    ⟨Or.inl rfl, by decide, by decide, by decide,
     c3_amended.2.2.2 NavState.SEARCH 2 10 (Or.inl rfl) (by decide) (by decide) (by decide)⟩⟩

/-- C9 counterexample: feeding the filtered sequence
`[-70, -68, -60, -52, -44, -44, -44, -44]` tick by tick with
`APPROACH_THRESHOLD = -55` and `TARGET_THRESHOLD = -46`, the
APPROACH→VERIFY transition fires on the 5th sample (`-44 ≥ -46` on the first
APPROACH tick), not on the 7th as claimed: after 4 samples the machine is in
APPROACH and after 5 samples it is already in VERIFY. -/
theorem c9_counterexample :
    (fvRun (-55) (-46) 20 4 fvInit (c9trace.take 4)).state = NavState.APPROACH ∧
    (fvRun (-55) (-46) 20 4 fvInit (c9trace.take 5)).state = NavState.VERIFY := by
  have h1 : fvTick (-55) (-46) 20 4 fvInit (-70) none
      = ⟨NavState.SEARCH, -70, 0, 0, ⟨0, 0⟩⟩ := by
    simp [fvTick, fvInit, handle_search, check_obstacle, obstacleHit] <;> norm_num
  have h2 : fvTick (-55) (-46) 20 4 ⟨NavState.SEARCH, -70, 0, 0, ⟨0, 0⟩⟩ (-68) none
      = ⟨NavState.SEARCH, -68, 0, 0, ⟨0, 0⟩⟩ := by
    simp [fvTick, handle_search, check_obstacle, obstacleHit] <;> norm_num
  have h3 : fvTick (-55) (-46) 20 4 ⟨NavState.SEARCH, -68, 0, 0, ⟨0, 0⟩⟩ (-60) none
      = ⟨NavState.SEARCH, -60, 0, 0, ⟨0, 0⟩⟩ := by
    simp [fvTick, handle_search, check_obstacle, obstacleHit] <;> norm_num
  have h4 : fvTick (-55) (-46) 20 4 ⟨NavState.SEARCH, -60, 0, 0, ⟨0, 0⟩⟩ (-52) none
      = ⟨NavState.APPROACH, -52, 0, 0, ⟨0, 0⟩⟩ := by
    simp [fvTick, handle_search, check_obstacle, obstacleHit] <;> norm_num
  have h5 : fvTick (-55) (-46) 20 4 ⟨NavState.APPROACH, -52, 0, 0, ⟨0, 0⟩⟩ (-44) none
      = ⟨NavState.VERIFY, -44, 0, 0, ⟨0, 0⟩⟩ := by
    simp [fvTick, handle_approach, check_obstacle, obstacleHit] <;> norm_num
  have htake4 : c9trace.take 4 = [(-70, none), (-68, none), (-60, none), (-52, none)] := rfl
  have htake5 : c9trace.take 5
      = [(-70, none), (-68, none), (-60, none), (-52, none), (-44, none)] := rfl
  constructor
  · rw [htake4]
    simp only [fvRun, List.foldl]
    rw [h1, h2, h3, h4]
  · rw [htake5]
    simp only [fvRun, List.foldl]
    rw [h1, h2, h3, h4, h5]

/-- C9 amended: for the filtered signal sequence
`[-70, -68, -60, -52, -44, -44, -44, -44]` with `APPROACH_THRESHOLD = -55`
and `TARGET_THRESHOLD = -46`, starting in SEARCH with no obstacles, the
state machine transitions SEARCH→APPROACH on the 4th sample and
APPROACH→VERIFY on the 5th sample. -/
theorem c9_scenario :
    (fvRun (-55) (-46) 20 4 fvInit (c9trace.take 3)).state = NavState.SEARCH ∧
    (fvRun (-55) (-46) 20 4 fvInit (c9trace.take 4)).state = NavState.APPROACH ∧
    (fvRun (-55) (-46) 20 4 fvInit (c9trace.take 5)).state = NavState.VERIFY := by
  have h1 : fvTick (-55) (-46) 20 4 fvInit (-70) none
      = ⟨NavState.SEARCH, -70, 0, 0, ⟨0, 0⟩⟩ := by
    simp [fvTick, fvInit, handle_search, check_obstacle, obstacleHit] <;> norm_num
  have h2 : fvTick (-55) (-46) 20 4 ⟨NavState.SEARCH, -70, 0, 0, ⟨0, 0⟩⟩ (-68) none
      = ⟨NavState.SEARCH, -68, 0, 0, ⟨0, 0⟩⟩ := by
    simp [fvTick, handle_search, check_obstacle, obstacleHit] <;> norm_num
  have h3 : fvTick (-55) (-46) 20 4 ⟨NavState.SEARCH, -68, 0, 0, ⟨0, 0⟩⟩ (-60) none
      = ⟨NavState.SEARCH, -60, 0, 0, ⟨0, 0⟩⟩ := by
    simp [fvTick, handle_search, check_obstacle, obstacleHit] <;> norm_num
  have h4 : fvTick (-55) (-46) 20 4 ⟨NavState.SEARCH, -60, 0, 0, ⟨0, 0⟩⟩ (-52) none
      = ⟨NavState.APPROACH, -52, 0, 0, ⟨0, 0⟩⟩ := by
    simp [fvTick, handle_search, check_obstacle, obstacleHit] <;> norm_num
  have h5 : fvTick (-55) (-46) 20 4 ⟨NavState.APPROACH, -52, 0, 0, ⟨0, 0⟩⟩ (-44) none
      = ⟨NavState.VERIFY, -44, 0, 0, ⟨0, 0⟩⟩ := by
    simp [fvTick, handle_approach, check_obstacle, obstacleHit] <;> norm_num
  have htake3 : c9trace.take 3 = [(-70, none), (-68, none), (-60, none)] := rfl
  have htake4 : c9trace.take 4 = [(-70, none), (-68, none), (-60, none), (-52, none)] := rfl
  have htake5 : c9trace.take 5
      = [(-70, none), (-68, none), (-60, none), (-52, none), (-44, none)] := rfl
  refine ⟨?_, ?_, ?_⟩
  · rw [htake3]
    simp only [fvRun, List.foldl]
    rw [h1, h2, h3]
  · rw [htake4]
    simp only [fvRun, List.foldl]
    rw [h1, h2, h3, h4]
  · rw [htake5]
    simp only [fvRun, List.foldl]
    rw [h1, h2, h3, h4, h5]

theorem length_sortAsc (l : List ℚ) : (sortAsc l).length = l.length := by
  simp [sortAsc, List.length_insertionSort]

theorem sum_sortAsc (l : List ℚ) : (sortAsc l).sum = l.sum :=
  (List.perm_insertionSort _ l).sum_eq

theorem listMean_sortAsc (l : List ℚ) : listMean (sortAsc l) = listMean l := by
  rw [listMean, listMean, listSum, listSum, sum_sortAsc, length_sortAsc]

theorem length_pyTrim (l : List ℚ) (k : ℕ) (h : 2 * k ≤ l.length) :
    (pyTrim l k).length = l.length - 2 * k := by
  simp only [pyTrim, List.length_take, List.length_drop]
  omega

/-- C6 counterexample: a burst of exactly 5 valid readings containing one
extreme outlier is averaged WITHOUT trimming, because
`trim_amt = int(5 * 0.1) = 0` and the `if trim_amt > 0` guard skips the
slice: the code returns the plain mean `-60` (the outlier fully included),
whereas discarding one reading from each end, as the claimed trimmed mean
would, gives `-50`. -/
theorem c6_counterexample :
    get_averaged_rssi [-100, -50, -50, -50, -50] = some (-60) ∧
    listMean [-100, -50, -50, -50, -50] = -60 ∧
    listMean (pyTrim (sortAsc [-100, -50, -50, -50, -50]) 1) = -50 := by
  have hsort : sortAsc [(-100:ℚ), -50, -50, -50, -50] = [-100, -50, -50, -50, -50] := by
    decide
  have h1 : ([(-100:ℚ), -50, -50, -50, -50] : List ℚ) ≠ [] := by decide
  have h2 : 5 ≤ ([(-100:ℚ), -50, -50, -50, -50] : List ℚ).length := by decide
  have h3 : ([(-100:ℚ), -50, -50, -50, -50] : List ℚ).length / 10 = 0 := by decide
  have htrim : pyTrim (sortAsc [(-100:ℚ), -50, -50, -50, -50]) 1 = [-50, -50, -50] := by
    decide
  refine ⟨?_, ?_, ?_⟩
  · simp only [get_averaged_rssi, h1, h2, h3, hsort]
    norm_num [listMean, listSum]
    exact fun h => absurd h h1
  · norm_num [listMean, listSum]
  · rw [htrim]
    norm_num [listMean, listSum]

/-- C6 amended: for a burst of `n ≥ 5` valid readings the code sorts
ascending and discards `int(0.1·n)` readings from each end; for
`5 ≤ n ≤ 9` that trim amount is 0, so the returned estimate is the plain
mean of the readings; only for `n ≥ 10` is at least one reading discarded
from each end, making the estimate a proper trimmed mean. -/
theorem c6_trimmed_mean (readings : List ℚ) (h5 : 5 ≤ readings.length) :
    (readings.length ≤ 9 → get_averaged_rssi readings = some (listMean readings)) ∧
    (10 ≤ readings.length →
      get_averaged_rssi readings =
        some (listMean (pyTrim (sortAsc readings) (readings.length / 10))) ∧
      1 ≤ readings.length / 10) := by
  have hne : readings ≠ [] := by
    intro h
    rw [h] at h5
    simp at h5
  constructor
  · intro h9
    have htrim : readings.length / 10 = 0 := Nat.div_eq_of_lt (by omega)
    have hsne : sortAsc readings ≠ [] := by
      intro hh
      have hl := length_sortAsc readings
      rw [hh] at hl
      simp at hl
      omega
    simp [get_averaged_rssi, hne, h5, htrim, hsne, listMean_sortAsc]
  · intro h10
    have hk1 : 1 ≤ readings.length / 10 := by omega
    have h0k : 0 < readings.length / 10 := hk1
    have hlen' : (pyTrim (sortAsc readings) (readings.length / 10)).length
        = readings.length - 2 * (readings.length / 10) := by
      rw [length_pyTrim _ _ (by rw [length_sortAsc]; omega), length_sortAsc]
    have hpne : pyTrim (sortAsc readings) (readings.length / 10) ≠ [] := by
      intro hh
      rw [hh] at hlen'
      simp at hlen'
      omega
    exact ⟨by simp [get_averaged_rssi, hne, h5, h0k, hpne], hk1⟩

theorem c6_witness :
    5 ≤ ([(1:ℚ), 2, 3, 4, 5, 6, 7, 8, 9, 10] : List ℚ).length ∧
    ((([(1:ℚ), 2, 3, 4, 5, 6, 7, 8, 9, 10] : List ℚ).length ≤ 9 →
       get_averaged_rssi [(1:ℚ), 2, 3, 4, 5, 6, 7, 8, 9, 10] =
         some (listMean [(1:ℚ), 2, 3, 4, 5, 6, 7, 8, 9, 10])) ∧
     (10 ≤ ([(1:ℚ), 2, 3, 4, 5, 6, 7, 8, 9, 10] : List ℚ).length →
       get_averaged_rssi [(1:ℚ), 2, 3, 4, 5, 6, 7, 8, 9, 10] =
         some (listMean (pyTrim (sortAsc [(1:ℚ), 2, 3, 4, 5, 6, 7, 8, 9, 10])
           (([(1:ℚ), 2, 3, 4, 5, 6, 7, 8, 9, 10] : List ℚ).length / 10))) ∧
       1 ≤ ([(1:ℚ), 2, 3, 4, 5, 6, 7, 8, 9, 10] : List ℚ).length / 10)) :=
  ⟨by decide, c6_trimmed_mean _ (by decide)⟩

end RSSIBot
